import Mathlib

/-!
Shallow embedding of the `wasi`/wasmtime backend of the mio event notification
library (src/sys/wasi/wasmtime.rs) and of the `TcpListener` Source forwarding
(src/net/tcp/listener.rs), with theorems checking the specification's claims
about `Selector::select`, `register`, `reregister`, `deregister`, the per-event
predicates and the `TcpListener` Source implementation.

Machine integers are modelled as `Nat` with explicit `% 2 ^ w` at the cast
sites that matter (`usize` is 32 bits on the wasm32 target, `wasi::Userdata`
is `u64`).  The host call `wasi::poll` is an external function; `select` is
modelled parametrically over its outcome.
-/

namespace Mio

/-- WASI `Eventtype` discriminant for clock subscriptions. -/
def EVENTTYPE_CLOCK : Nat := 0

/-- WASI `Eventtype` discriminant for fd-read subscriptions. -/
def EVENTTYPE_FD_READ : Nat := 1

/-- WASI `Eventtype` discriminant for fd-write subscriptions. -/
def EVENTTYPE_FD_WRITE : Nat := 2

/-- WASI read/write event flag bit signalling hang-up. -/
def EVENTRWFLAGS_FD_READWRITE_HANGUP : Nat := 1

/-- WASI monotonic clock id. -/
def CLOCKID_MONOTONIC : Nat := 1

/-- Modulus of `u64` (`wasi::Userdata`, `wasi::Timestamp`). -/
def U64_MOD : Nat := 2 ^ 64

/-- Modulus of `usize` on the wasm32 target. -/
def USIZE_MOD : Nat := 2 ^ 32

/-- Token used to add a timeout subscription, also used in removing it again:
`wasi::Userdata::max_value()`. -/
def TIMEOUT_TOKEN : Nat := U64_MOD - 1

/-- Payload of a clock subscription (`wasi::SubscriptionClock`). -/
structure SubscriptionClock where
  id : Nat
  timeout : Nat
  precision : Nat
  flags : Nat
deriving DecidableEq

/-- Tagged content of `wasi::SubscriptionU` (the `tag` field together with the
union payload: the file descriptor for fd-read/fd-write, the clock data for
clock subscriptions). -/
inductive SubscriptionU where
  | clock (c : SubscriptionClock)
  | fd_read (file_descriptor : Nat)
  | fd_write (file_descriptor : Nat)
deriving DecidableEq

/-- Discriminant of a `SubscriptionU`, as the WASI `Eventtype` value. -/
def SubscriptionU.tag : SubscriptionU → Nat
  | .clock _ => EVENTTYPE_CLOCK
  | .fd_read _ => EVENTTYPE_FD_READ
  | .fd_write _ => EVENTTYPE_FD_WRITE

/-- One `wasi::Subscription`. -/
structure Subscription where
  userdata : Nat
  u : SubscriptionU
deriving DecidableEq

/-- Payload of an fd event (`wasi::EventFdReadwrite`). -/
structure EventFdReadwrite where
  nbytes : Nat
  flags : Nat
deriving DecidableEq

/-- One `wasi::Event` record as delivered by `wasi::poll`. -/
structure Event where
  userdata : Nat
  error : Nat
  type_ : Nat
  fd_readwrite : EventFdReadwrite
deriving DecidableEq

/-- The `io::Error` values produced by this backend: `io::ErrorKind::NotFound`
from `deregister`, and `io::Error::from_raw_os_error` from `io_err`. -/
inductive IOError where
  | notFound
  | fromRawOsError (code : Nat)
deriving DecidableEq

/-- Modelled from the spec: Token is "an opaque, caller-chosen identifier (an
unsigned integer, unconstrained by the core)"; its payload is a Rust `usize`
(32 bits on the wasm32 target).  The `Token` type itself lives outside the
given sources. -/
structure Token where
  val : Nat
deriving DecidableEq

/-- Modelled from the spec: Interest is "a non-empty bitset over {READABLE,
WRITABLE, ...}"; the backend only consumes its `is_readable`/`is_writable`
accessors.  The `Interest` type itself lives outside the given sources. -/
structure Interest where
  readable : Bool
  writable : Bool
deriving DecidableEq

/-- Accessor `Interest::is_readable`. -/
def Interest.is_readable (i : Interest) : Bool := i.readable

/-- Accessor `Interest::is_writable`. -/
def Interest.is_writable (i : Interest) : Bool := i.writable

/-- The cast `token.0 as wasi::Userdata`: `usize` widened to `u64`. -/
def usizeToUserdata (t : Nat) : Nat := t % U64_MOD

/-- The cast `event.userdata as usize`: `u64` truncated to `usize`
(32 bits on wasm32). -/
def userdataToUsize (u : Nat) : Nat := u % USIZE_MOD

namespace event

/-- Accessor `event::token`: `Token(event.userdata as usize)`. -/
def token (event : Event) : Token := Token.mk (userdataToUsize event.userdata)

/-- Predicate `event::is_readable`. -/
def is_readable (event : Event) : Bool := event.type_ == EVENTTYPE_FD_READ

/-- Predicate `event::is_writable`. -/
def is_writable (event : Event) : Bool := event.type_ == EVENTTYPE_FD_WRITE

/-- Predicate `event::is_error`: not supported on this backend, always false. -/
def is_error (_ : Event) : Bool := false

/-- Predicate `event::is_read_closed`: an fd-read event whose flags include
the hang-up flag. -/
def is_read_closed (event : Event) : Bool :=
  event.type_ == EVENTTYPE_FD_READ &&
    (event.fd_readwrite.flags &&& EVENTRWFLAGS_FD_READWRITE_HANGUP) != 0

/-- Predicate `event::is_write_closed`: an fd-write event whose flags include
the hang-up flag. -/
def is_write_closed (event : Event) : Bool :=
  event.type_ == EVENTTYPE_FD_WRITE &&
    (event.fd_readwrite.flags &&& EVENTRWFLAGS_FD_READWRITE_HANGUP) != 0

/-- Predicate `event::is_priority`: not supported on this backend, always false. -/
def is_priority (_ : Event) : Bool := false

end event

/-- Function `timeout_subscription`: the synthetic clock subscription added by
`select` when a timeout is given.  The timeout is in nanoseconds, clamped to
`wasi::Timestamp::MAX`; the precision is one millisecond. -/
def timeout_subscription (timeout : Nat) : Subscription :=
  { userdata := TIMEOUT_TOKEN
    u := SubscriptionU.clock
      { id := CLOCKID_MONOTONIC
        timeout := min (U64_MOD - 1) timeout
        precision := 1000000
        flags := 0 } }

/-- Predicate `is_timeout_event`: a clock event carrying the reserved
timeout token. -/
def is_timeout_event (event : Event) : Bool :=
  event.type_ == EVENTTYPE_CLOCK && event.userdata == TIMEOUT_TOKEN

/-- Function `io_err`: convert a `wasi::Errno` into an `io::Error`. -/
def io_err (errno : Nat) : IOError := IOError.fromRawOsError errno

/-- Function `check_errors`: check all events for possible errors, returning
the first error found. -/
def check_errors : List Event → Except IOError Unit
  | [] => Except.ok ()
  | event :: rest =>
    if event.error != 0 then Except.error (io_err event.error)
    else check_errors rest

/-- Rust `Iterator::position`: index of the first element satisfying `p`. -/
def position (p : α → Bool) : List α → Option Nat
  | [] => none
  | x :: xs => if p x then some 0 else (position p xs).map (· + 1)

/-- Rust `Vec::swap_remove(i)`: overwrite index `i` with the last element and
shorten the vector by one. -/
def swapRemove (l : List α) (i : Nat) : List α :=
  match l.getLast? with
  | none => l
  | some x => (l.set i x).dropLast

/-- The `Events` buffer (`Vec<wasi::Event>`): its live contents together with
its reserved capacity. -/
structure Events where
  data : List Event
  cap : Nat
deriving DecidableEq

/-- Rust `Vec::clear`: drops the contents, keeps the capacity. -/
def Events.clear (e : Events) : Events := { e with data := [] }

/-- Rust `Vec::reserve(additional)`: afterwards the capacity is at least
`len + additional`. -/
def Events.reserve (e : Events) (additional : Nat) : Events :=
  { e with cap := max e.cap (e.data.length + additional) }

/-- The subscription list handed to `wasi::poll` by `select`: the stored
subscriptions, extended by the synthetic clock subscription when a timeout is
given. -/
def waitSet (subs : List Subscription) (timeout : Option Nat) : List Subscription :=
  match timeout with
  | some t => subs ++ [timeout_subscription t]
  | none => subs

/-- Removal of the synthetic timeout's own event inside `select`:
`events.iter().position(is_timeout_event)` followed by `swap_remove`. -/
def removeTimeoutEvent (evs : List Event) : List Event :=
  match position is_timeout_event evs with
  | some index => swapRemove evs index
  | none => evs

/-- One call of `Selector::select`.  `poll` stands for the host function
`wasi::poll`: applied to the wait set it either fails with an errno or
delivers the list of events it wrote into the buffer (whose length is the
returned `n_events`).  The result is the call's return value, the final
`Events` buffer, and the subscription list as left behind by the call. -/
def select (subs : List Subscription) (events : Events) (timeout : Option Nat)
    (poll : List Subscription → Except Nat (List Event)) :
    Except IOError Unit × Events × List Subscription :=
  let cleared := events.clear
  let subscriptions := waitSet subs timeout
  let reserved := cleared.reserve subscriptions.length
  let subscriptionsAfter := if timeout.isSome then subscriptions.dropLast else subscriptions
  match poll subscriptions with
  | Except.ok evs =>
    let data := if timeout.isSome then removeTimeoutEvent evs else evs
    (check_errors data, { reserved with data := data }, subscriptionsAfter)
  | Except.error errno => (Except.error (io_err errno), reserved, subscriptionsAfter)

/-- Operation `Selector::register`: push an fd-write subscription when the
interests are writable, then an fd-read subscription when they are readable;
always returns `Ok(())`. -/
def Selector.register (subs : List Subscription) (fd : Nat) (token : Token)
    (interests : Interest) : Except IOError Unit × List Subscription :=
  let subs1 :=
    if interests.is_writable then
      subs ++ [{ userdata := usizeToUserdata token.val, u := SubscriptionU.fd_write fd }]
    else subs
  let subs2 :=
    if interests.is_readable then
      subs1 ++ [{ userdata := usizeToUserdata token.val, u := SubscriptionU.fd_read fd }]
    else subs1
  (Except.ok (), subs2)

/-- The matching predicate inside `Selector::deregister`: an fd-read or
fd-write subscription whose file descriptor equals `fd`. -/
def deregPredicate (fd : Nat) (subscription : Subscription) : Bool :=
  match subscription.u with
  | SubscriptionU.fd_write f => f == fd
  | SubscriptionU.fd_read f => f == fd
  | SubscriptionU.clock _ => false

/-- Auxiliary: `swapRemove` shortens a non-empty list by exactly one. -/
theorem length_swapRemove (l : List α) (i : Nat) (h : l ≠ []) :
    (swapRemove l i).length = l.length - 1 := by
  unfold swapRemove
  rw [List.getLast?_eq_getLast l h]
  simp [List.length_dropLast, List.length_set]

/-- Auxiliary: `position` finds nothing exactly on lists with no match. -/
theorem position_eq_none_iff (p : α → Bool) (l : List α) :
    position p l = none ↔ ∀ x ∈ l, p x = false := by
  induction l with
  | nil => simp [position]
  | cons a xs ih =>
    by_cases ha : p a = true
    · simp [position, ha]
    · rw [Bool.not_eq_true] at ha
      simp [position, ha, Option.map_eq_none', ih]

/-- The `while let` loop of `Selector::deregister`: repeatedly find and
swap-remove a matching subscription; `ret` starts as the not-found error and
becomes `Ok(())` on the first removal. -/
def deregLoop (fd : Nat) (subs : List Subscription) (ret : Except IOError Unit) :
    Except IOError Unit × List Subscription :=
  match h : position (deregPredicate fd) subs with
  | some index => deregLoop fd (swapRemove subs index) (Except.ok ())
  | none => (ret, subs)
termination_by subs.length
decreasing_by
  have hne : subs ≠ [] := by
    intro hnil
    rw [hnil] at h
    simp [position] at h
  rw [length_swapRemove _ _ hne]
  have hpos : 0 < subs.length := List.length_pos.mpr hne
  omega

/-- Operation `Selector::deregister`: remove all subscriptions for `fd`,
returning `Ok(())` if any matched and a not-found error otherwise. -/
def Selector.deregister (subs : List Subscription) (fd : Nat) :
    Except IOError Unit × List Subscription :=
  deregLoop fd subs (Except.error IOError.notFound)

/-- Operation `Selector::reregister`: `deregister(fd).and_then(|()|
register(fd, token, interests))`. -/
def Selector.reregister (subs : List Subscription) (fd : Nat) (token : Token)
    (interests : Interest) : Except IOError Unit × List Subscription :=
  match Selector.deregister subs fd with
  | (Except.ok _, subs1) => Selector.register subs1 fd token interests
  | (Except.error e, subs1) => (Except.error e, subs1)

/-- Modelled from the spec: the `Registry` is "a shareable, clonable front
door to one Selector"; its `Registry` type lives outside the given sources,
and only its identity as an argument matters to the forwarding below. -/
structure Registry where
  selector : List Subscription

/-- Modelled from the spec: `IoSource` "forwards the Source capability to the
underlying Selector".  Its code lives outside the given sources, so its three
Source operations are kept abstract, as arbitrary functions of the registry,
token and interest arguments. -/
structure IoSource where
  register : Registry → Token → Interest → Except IOError Unit
  reregister : Registry → Token → Interest → Except IOError Unit
  deregister : Registry → Except IOError Unit

/-- Type `TcpListener` (src/net/tcp/listener.rs): a wrapper around an inner
`IoSource`. -/
structure TcpListener where
  inner : IoSource

/-- Method `TcpListener::register` from `impl event::Source for TcpListener`. -/
def TcpListener.register (l : TcpListener) (registry : Registry) (token : Token)
    (interests : Interest) : Except IOError Unit :=
  l.inner.register registry token interests

/-- Method `TcpListener::reregister` from `impl event::Source for TcpListener`. -/
def TcpListener.reregister (l : TcpListener) (registry : Registry) (token : Token)
    (interests : Interest) : Except IOError Unit :=
  l.inner.reregister registry token interests

/-- Method `TcpListener::deregister` from `impl event::Source for TcpListener`. -/
def TcpListener.deregister (l : TcpListener) (registry : Registry) :
    Except IOError Unit :=
  l.inner.deregister registry

/-- Auxiliary: a successful `position` requires a non-empty list. -/
theorem position_some_ne_nil {p : α → Bool} {l : List α} {i : Nat}
    (h : position p l = some i) : l ≠ [] := by
  intro hnil
  rw [hnil] at h
  simp [position] at h

/-- Auxiliary: `swapRemove` at an index found by `position` removes exactly
one element satisfying the predicate, up to permutation of the rest. -/
theorem perm_swapRemove_position {p : α → Bool} :
    ∀ {l : List α} {i : Nat}, position p l = some i →
      ∃ x, p x = true ∧ l.Perm (x :: swapRemove l i) := by
  intro l
  induction l with
  | nil => intro i h; simp [position] at h
  | cons a xs ih =>
    intro i h
    by_cases hp : p a = true
    · have hi : i = 0 := by
        simp only [position, if_pos hp] at h
        exact (Option.some_inj.mp h).symm
      subst hi
      refine ⟨a, hp, ?_⟩
      cases xs with
      | nil => simp [swapRemove]
      | cons b ys =>
        have hne : (b :: ys) ≠ ([] : List α) := by simp
        have hg : (a :: b :: ys).getLast? = some ((b :: ys).getLast hne) := by
          rw [List.getLast?_cons_cons, List.getLast?_eq_getLast _ hne]
        simp only [swapRemove, hg, List.set_cons_zero, List.dropLast_cons₂]
        refine List.Perm.cons a ?_
        have hdg : (b :: ys).dropLast ++ [(b :: ys).getLast hne] = b :: ys :=
          List.dropLast_append_getLast hne
        have hps := List.perm_append_singleton ((b :: ys).getLast hne) (b :: ys).dropLast
        rw [hdg] at hps
        exact hps
    · rw [Bool.not_eq_true] at hp
      have hmap : (position p xs).map (· + 1) = some i := by
        simpa only [position, hp, Bool.false_eq_true, if_false] using h
      rcases Option.map_eq_some'.mp hmap with ⟨j, hj, hij⟩
      rcases ih hj with ⟨x, hx, hperm⟩
      have hxs : xs ≠ [] := position_some_ne_nil hj
      have hgl : (a :: xs).getLast? = xs.getLast? := by
        cases xs with
        | nil => exact absurd rfl hxs
        | cons b ys => rfl
      have hset : xs.set j (xs.getLast hxs) ≠ [] := by
        intro hc
        have hlen := congrArg List.length hc
        simp only [List.length_set, List.length_nil] at hlen
        exact hxs (List.length_eq_zero.mp hlen)
      have hsr : swapRemove (a :: xs) (j + 1) = a :: swapRemove xs j := by
        simp only [swapRemove, hgl, List.getLast?_eq_getLast _ hxs, List.set_cons_succ]
        rw [List.dropLast_cons_of_ne_nil hset]
      subst hij
      rw [hsr]
      exact ⟨x, hx, (hperm.cons a).trans (List.Perm.swap x a (swapRemove xs j))⟩

/-- Auxiliary: full characterisation of the `deregister` loop: the first
component is `Ok(())` exactly when some subscription matched (otherwise the
incoming `ret` is returned), and the final list is a permutation of the
non-matching subscriptions. -/
theorem deregLoop_spec (fd : Nat) :
    ∀ n, ∀ subs : List Subscription, subs.length ≤ n → ∀ ret,
    (deregLoop fd subs ret).1 =
      (if subs.any (deregPredicate fd) then Except.ok () else ret) ∧
    ((deregLoop fd subs ret).2).Perm
      (subs.filter (fun s => !deregPredicate fd s)) := by
  intro n
  induction n with
  | zero =>
    intro subs hlen ret
    have hnil : subs = [] := List.eq_nil_of_length_eq_zero (Nat.le_zero.mp hlen)
    subst hnil
    rw [deregLoop.eq_def]
    simp [position]
  | succ n ih =>
    intro subs hlen ret
    rw [deregLoop.eq_def]
    split
    · rename_i index hpos
      obtain ⟨x, hx, hperm⟩ := perm_swapRemove_position hpos
      have hne := position_some_ne_nil hpos
      have hlt : (swapRemove subs index).length ≤ n := by
        rw [length_swapRemove _ _ hne]
        have hposl : 0 < subs.length := List.length_pos.mpr hne
        omega
      obtain ⟨h1, h2⟩ := ih (swapRemove subs index) hlt (Except.ok ())
      have hany : subs.any (deregPredicate fd) = true :=
        List.any_eq_true.mpr ⟨x, hperm.mem_iff.mpr (List.mem_cons_self x _), hx⟩
      constructor
      · rw [h1, hany]
        by_cases hsw : (swapRemove subs index).any (deregPredicate fd) <;> simp [hsw]
      · refine h2.trans ?_
        have hfil := (hperm.filter (fun s => !deregPredicate fd s)).symm
        rwa [List.filter_cons_of_neg (by simp [hx])] at hfil
    · rename_i hpos
      have hall := (position_eq_none_iff _ _).mp hpos
      have hany : subs.any (deregPredicate fd) = false := by
        rw [List.any_eq_false]
        intro s hs
        simp [hall s hs]
      rw [hany]
      refine ⟨rfl, ?_⟩
      rw [List.filter_eq_self.mpr fun s hs => by simp [hall s hs]]

/-- Claim C9: on the emulated backend `is_error` and `is_priority` return
false for every event, and `is_read_closed` (resp. `is_write_closed`) holds
exactly for an fd-read (resp. fd-write) event whose flags include the hang-up
flag. -/
theorem event_predicates_c9 (e : Event) :
    event.is_error e = false ∧ event.is_priority e = false ∧
    (event.is_read_closed e = true ↔
      e.type_ = EVENTTYPE_FD_READ ∧
        e.fd_readwrite.flags &&& EVENTRWFLAGS_FD_READWRITE_HANGUP ≠ 0) ∧
    (event.is_write_closed e = true ↔
      e.type_ = EVENTTYPE_FD_WRITE ∧
        e.fd_readwrite.flags &&& EVENTRWFLAGS_FD_READWRITE_HANGUP ≠ 0) := by
  refine ⟨rfl, rfl, ?_, ?_⟩ <;>
    simp [event.is_read_closed, event.is_write_closed]

/-- Witness for claim C9 at a concrete event: an fd-read event with the
hang-up flag set is read-closed but not write-closed, and reports neither
error nor priority. -/
theorem event_predicates_c9_witness :
    event.is_error (Event.mk 3 0 EVENTTYPE_FD_READ (EventFdReadwrite.mk 0 1)) = false ∧
    event.is_priority (Event.mk 3 0 EVENTTYPE_FD_READ (EventFdReadwrite.mk 0 1)) = false ∧
    (event.is_read_closed (Event.mk 3 0 EVENTTYPE_FD_READ (EventFdReadwrite.mk 0 1)) = true ↔
      (Event.mk 3 0 EVENTTYPE_FD_READ (EventFdReadwrite.mk 0 1)).type_ = EVENTTYPE_FD_READ ∧
        (Event.mk 3 0 EVENTTYPE_FD_READ (EventFdReadwrite.mk 0 1)).fd_readwrite.flags &&&
          EVENTRWFLAGS_FD_READWRITE_HANGUP ≠ 0) ∧
    (event.is_write_closed (Event.mk 3 0 EVENTTYPE_FD_READ (EventFdReadwrite.mk 0 1)) = true ↔
      (Event.mk 3 0 EVENTTYPE_FD_READ (EventFdReadwrite.mk 0 1)).type_ = EVENTTYPE_FD_WRITE ∧
        (Event.mk 3 0 EVENTTYPE_FD_READ (EventFdReadwrite.mk 0 1)).fd_readwrite.flags &&&
          EVENTRWFLAGS_FD_READWRITE_HANGUP ≠ 0) :=
  event_predicates_c9 (Event.mk 3 0 EVENTTYPE_FD_READ (EventFdReadwrite.mk 0 1))

/-- Claim C10: `TcpListener`'s Source implementation consists of thin
forwards: each of the three operations returns exactly the result of the
corresponding operation of the wrapped inner `IoSource` on the same registry,
token and interest arguments. -/
theorem tcp_listener_source_forwards_c10 (l : TcpListener) (registry : Registry)
    (token : Token) (interests : Interest) :
    l.register registry token interests = l.inner.register registry token interests ∧
    l.reregister registry token interests = l.inner.reregister registry token interests ∧
    l.deregister registry = l.inner.deregister registry :=
  ⟨rfl, rfl, rfl⟩

/-- Claim C8: `select` leaves the subscription list unchanged: the synthetic
clock subscription pushed for a timeout is popped again after the poll,
whether the poll succeeds or fails. -/
theorem select_frame_c8 (subs : List Subscription) (events : Events)
    (timeout : Option Nat) (poll : List Subscription → Except Nat (List Event)) :
    (select subs events timeout poll).2.2 = subs := by
  cases hp : poll (waitSet subs timeout) <;> cases timeout <;>
    simp [select, waitSet, hp] <;> simp [waitSet] at hp <;> simp [hp]

/-- Claim C4 (amended): `Selector::register` never fails: it returns `Ok(())`
unconditionally and appends new subscriptions for the requested interests
without checking whether the handle is already registered with the Selector. -/
theorem register_always_appends_c4 (subs : List Subscription) (fd : Nat)
    (token : Token) (interests : Interest) :
    (Selector.register subs fd token interests).1 = Except.ok () ∧
    (Selector.register subs fd token interests).2 =
      subs ++
        (if interests.is_writable then
          [{ userdata := usizeToUserdata token.val, u := SubscriptionU.fd_write fd }]
        else []) ++
        (if interests.is_readable then
          [{ userdata := usizeToUserdata token.val, u := SubscriptionU.fd_read fd }]
        else []) := by
  refine ⟨rfl, ?_⟩
  by_cases hw : interests.is_writable <;> by_cases hr : interests.is_readable <;>
    simp [Selector.register, hw, hr]

/-- Auxiliary: result shape of `Selector::register`: it always returns
`Ok(())` and appends the write subscription (when writable) and then the read
subscription (when readable) to the incoming list. -/
theorem register_ok_and_appends (subs : List Subscription) (fd : Nat) (token : Token)
    (interests : Interest) :
    (Selector.register subs fd token interests).1 = Except.ok () ∧
    (Selector.register subs fd token interests).2 =
      subs ++
        (if interests.is_writable then
          [{ userdata := usizeToUserdata token.val, u := SubscriptionU.fd_write fd }]
        else []) ++
        (if interests.is_readable then
          [{ userdata := usizeToUserdata token.val, u := SubscriptionU.fd_read fd }]
        else []) := by
  refine ⟨rfl, ?_⟩
  by_cases hw : interests.is_writable <;> by_cases hr : interests.is_readable <;>
    simp [Selector.register, hw, hr]

/-- Claim C3: `deregister(fd)` removes every subscription whose file
descriptor equals `fd` (the final list is a permutation of the non-matching
subscriptions, and no fd-read or fd-write subscription for `fd` survives),
returns `Ok(())` exactly when at least one subscription matched, and returns
the not-found error exactly when none matched — in particular a second
`deregister` of the same handle fails with not-found instead of succeeding. -/
theorem deregister_spec_c3 (subs : List Subscription) (fd : Nat) :
    ((Selector.deregister subs fd).1 = Except.ok () ↔
      subs.any (deregPredicate fd) = true) ∧
    ((Selector.deregister subs fd).1 = Except.error IOError.notFound ↔
      subs.any (deregPredicate fd) = false) ∧
    ((Selector.deregister subs fd).2).Perm
      (subs.filter (fun s => !deregPredicate fd s)) ∧
    (∀ s ∈ (Selector.deregister subs fd).2,
      s.u ≠ SubscriptionU.fd_read fd ∧ s.u ≠ SubscriptionU.fd_write fd) := by
  obtain ⟨h1, h2⟩ :=
    deregLoop_spec fd subs.length subs le_rfl (Except.error IOError.notFound)
  rw [Selector.deregister] at *
  refine ⟨?_, ?_, h2, ?_⟩
  · rw [h1]
    by_cases hany : subs.any (deregPredicate fd) <;> simp [hany]
  · rw [h1]
    by_cases hany : subs.any (deregPredicate fd) <;> simp [hany]
  · intro s hs
    have hmem := h2.mem_iff.mp hs
    have hq := (List.mem_filter.mp hmem).2
    rw [Bool.not_eq_true'] at hq
    constructor
    · intro hc
      simp [deregPredicate, hc] at hq
    · intro hc
      simp [deregPredicate, hc] at hq

/-- Witness for claim C3 at a concrete state: with fd 5 registered (read and
write), `deregister(5)` succeeds, removes both subscriptions, and a repeat
would find nothing. -/
theorem deregister_spec_c3_witness :
    ((Selector.deregister
        (Selector.register [] 5 (Token.mk 1) (Interest.mk true true)).2 5).1 =
          Except.ok () ↔
      ((Selector.register [] 5 (Token.mk 1) (Interest.mk true true)).2).any
        (deregPredicate 5) = true) ∧
    ((Selector.deregister
        (Selector.register [] 5 (Token.mk 1) (Interest.mk true true)).2 5).1 =
          Except.error IOError.notFound ↔
      ((Selector.register [] 5 (Token.mk 1) (Interest.mk true true)).2).any
        (deregPredicate 5) = false) ∧
    ((Selector.deregister
        (Selector.register [] 5 (Token.mk 1) (Interest.mk true true)).2 5).2).Perm
      (((Selector.register [] 5 (Token.mk 1) (Interest.mk true true)).2).filter
        (fun s => !deregPredicate 5 s)) ∧
    (∀ s ∈ (Selector.deregister
        (Selector.register [] 5 (Token.mk 1) (Interest.mk true true)).2 5).2,
      s.u ≠ SubscriptionU.fd_read 5 ∧ s.u ≠ SubscriptionU.fd_write 5) :=
  deregister_spec_c3 (Selector.register [] 5 (Token.mk 1) (Interest.mk true true)).2 5

/-- Reference definition for claim C5, written from the spec's words:
`reregister` is "implemented as deregister-then-register": run `deregister`,
and only if it succeeded run `register` on the resulting state. -/
def reregisterSpec (subs : List Subscription) (fd : Nat) (token : Token)
    (interests : Interest) : Except IOError Unit × List Subscription :=
  let dereg := Selector.deregister subs fd
  match dereg.1 with
  | Except.ok _ => Selector.register dereg.2 fd token interests
  | Except.error e => (Except.error e, dereg.2)

/-- Claim C5: `reregister(fd, token, interests)` behaves exactly as
`deregister(fd)` followed — only on success — by `register(fd, token,
interests)`: it agrees with the deregister-then-register reference; on a
handle with no current subscription it returns the not-found error and leaves
the state unchanged without registering; and after a successful reregister
every remaining subscription for `fd` carries the new token's userdata. -/
theorem reregister_spec_c5 (subs : List Subscription) (fd : Nat) (token : Token)
    (interests : Interest) :
    Selector.reregister subs fd token interests =
      reregisterSpec subs fd token interests ∧
    (subs.any (deregPredicate fd) = false →
      Selector.reregister subs fd token interests =
        (Except.error IOError.notFound, subs)) ∧
    (subs.any (deregPredicate fd) = true →
      (Selector.reregister subs fd token interests).1 = Except.ok () ∧
      ∀ s ∈ (Selector.reregister subs fd token interests).2,
        deregPredicate fd s = true → s.userdata = usizeToUserdata token.val) := by
  obtain ⟨h1, h2⟩ :=
    deregLoop_spec fd subs.length subs le_rfl (Except.error IOError.notFound)
  have hderegLoop : Selector.deregister subs fd =
      deregLoop fd subs (Except.error IOError.notFound) := rfl
  refine ⟨?_, ?_, ?_⟩
  · rcases hd : Selector.deregister subs fd with ⟨res, subs1⟩
    simp only [Selector.reregister, reregisterSpec, hd]
    cases res <;> simp
  · intro hany
    rcases hd : Selector.deregister subs fd with ⟨res, subs1⟩
    rw [hderegLoop] at hd
    rw [hd, hany] at h1
    simp only [if_false, Bool.false_eq_true] at h1
    rw [hd] at h2
    simp only at h1 h2
    subst h1
    have hfil : subs.filter (fun s => !deregPredicate fd s) = subs := by
      refine List.filter_eq_self.mpr fun s hs => ?_
      have hf := List.any_eq_false.mp hany s hs
      simp [hf]
    rw [hfil] at h2
    have hsubs : subs1 = subs := by
      rw [deregLoop.eq_def] at hd
      rcases hpos : position (deregPredicate fd) subs with _ | index
      · rw [hpos] at hd
        simp only at hd
        exact (Prod.mk.injEq _ _ _ _ ▸ hd).2.symm
      · obtain ⟨x, hx, hperm⟩ := perm_swapRemove_position hpos
        have hmem := hperm.mem_iff.mpr (List.mem_cons_self x _)
        have hf := List.any_eq_false.mp hany x hmem
        rw [hx] at hf
        exact absurd hf (by simp)
    simp only [Selector.reregister, hderegLoop, hd, hsubs]
  · intro hany
    rcases hd : Selector.deregister subs fd with ⟨res, subs1⟩
    rw [hderegLoop] at hd
    rw [hd, hany] at h1
    simp only [if_true] at h1
    rw [hd] at h2
    simp only at h1 h2
    subst h1
    have hgoal : Selector.reregister subs fd token interests =
        Selector.register subs1 fd token interests := by
      simp only [Selector.reregister, hderegLoop, hd]
    rw [hgoal]
    obtain ⟨hok, happ⟩ := register_ok_and_appends subs1 fd token interests
    refine ⟨hok, ?_⟩
    intro s hs hpred
    rw [happ] at hs
    rcases List.mem_append.mp hs with hs1 | hnew
    · rcases List.mem_append.mp hs1 with hold | hw
      · have hq := (List.mem_filter.mp (h2.mem_iff.mp hold)).2
        rw [hpred] at hq
        exact absurd hq (by simp)
      · by_cases hwb : interests.is_writable
        · rw [if_pos hwb] at hw
          rw [List.mem_singleton.mp hw]
        · rw [if_neg hwb] at hw
          exact absurd hw (List.not_mem_nil s)
    · by_cases hrb : interests.is_readable
      · rw [if_pos hrb] at hnew
        rw [List.mem_singleton.mp hnew]
      · rw [if_neg hrb] at hnew
        exact absurd hnew (List.not_mem_nil s)
/-- Witness for claim C5 at concrete inputs: reregistering fd 5 on an empty
Selector fails with not-found and changes nothing, and after registering fd 5
with token 1, reregistering it with token 2 succeeds and leaves only token
2's userdata on fd 5's subscriptions. -/
theorem reregister_spec_c5_witness :
    (Selector.reregister [] 5 (Token.mk 2) (Interest.mk true true) =
      (Except.error IOError.notFound, [])) ∧
    ((Selector.reregister
        (Selector.register [] 5 (Token.mk 1) (Interest.mk true true)).2
        5 (Token.mk 2) (Interest.mk true true)).1 = Except.ok () ∧
      ∀ s ∈ (Selector.reregister
          (Selector.register [] 5 (Token.mk 1) (Interest.mk true true)).2
          5 (Token.mk 2) (Interest.mk true true)).2,
        deregPredicate 5 s = true → s.userdata = usizeToUserdata (Token.mk 2).val) :=
  ⟨(reregister_spec_c5 [] 5 (Token.mk 2) (Interest.mk true true)).2.1 (by decide),
   (reregister_spec_c5 (Selector.register [] 5 (Token.mk 1) (Interest.mk true true)).2
      5 (Token.mk 2) (Interest.mk true true)).2.2 (by decide)⟩

/-- Claim C6: tokens round-trip: every subscription created by `register`
stores the token's value (cast to `wasi::Userdata`) as its userdata, and for
any event carrying that userdata `event::token` recovers exactly the original
token; the token's value is a `usize`, i.e. below `2 ^ 32` on this target. -/
theorem token_roundtrip_c6 (subs : List Subscription) (fd : Nat) (token : Token)
    (interests : Interest) (h : token.val < USIZE_MOD) :
    ∃ added, (Selector.register subs fd token interests).2 = subs ++ added ∧
      ∀ s ∈ added, s.userdata = usizeToUserdata token.val ∧
        ∀ e : Event, e.userdata = s.userdata → event.token e = token := by
  obtain ⟨hok, happ⟩ := register_ok_and_appends subs fd token interests
  refine ⟨(if interests.is_writable then
        [{ userdata := usizeToUserdata token.val, u := SubscriptionU.fd_write fd }]
      else []) ++
      (if interests.is_readable then
        [{ userdata := usizeToUserdata token.val, u := SubscriptionU.fd_read fd }]
      else []),
    by rw [happ, List.append_assoc], ?_⟩
  intro s hs
  have hud : s.userdata = usizeToUserdata token.val := by
    rcases List.mem_append.mp hs with hw | hr
    · by_cases hwb : interests.is_writable
      · rw [if_pos hwb] at hw
        rw [List.mem_singleton.mp hw]
      · rw [if_neg hwb] at hw
        exact absurd hw (List.not_mem_nil s)
    · by_cases hrb : interests.is_readable
      · rw [if_pos hrb] at hr
        rw [List.mem_singleton.mp hr]
      · rw [if_neg hrb] at hr
        exact absurd hr (List.not_mem_nil s)
  refine ⟨hud, ?_⟩
  intro e he
  have h64 : token.val < U64_MOD := by
    refine lt_trans h ?_
    rw [USIZE_MOD, U64_MOD]
    norm_num
  simp only [event.token, userdataToUsize, he, hud, usizeToUserdata]
  rw [Nat.mod_eq_of_lt h64, Nat.mod_eq_of_lt h]

/-- Witness for claim C6: token 7 (< 2^32) round-trips through registration
of fd 4 with read and write interests. -/
theorem token_roundtrip_c6_witness :
    ∃ added, (Selector.register [] 4 (Token.mk 7) (Interest.mk true true)).2 =
        [] ++ added ∧
      ∀ s ∈ added, s.userdata = usizeToUserdata (Token.mk 7).val ∧
        ∀ e : Event, e.userdata = s.userdata → event.token e = Token.mk 7 :=
  token_roundtrip_c6 [] 4 (Token.mk 7) (Interest.mk true true) (by decide)

/-- Auxiliary: when a list contains at most one element satisfying
`is_timeout_event`, `removeTimeoutEvent` leaves none. -/
theorem removeTimeoutEvent_removes_all (evs : List Event)
    (hone : evs.countP is_timeout_event ≤ 1) :
    ∀ ev ∈ removeTimeoutEvent evs, is_timeout_event ev = false := by
  intro ev hev
  rcases hpos : position is_timeout_event evs with _ | index
  · have hr : removeTimeoutEvent evs = evs := by
      simp only [removeTimeoutEvent, hpos]
    rw [hr] at hev
    exact (position_eq_none_iff _ _).mp hpos ev hev
  · have hr : removeTimeoutEvent evs = swapRemove evs index := by
      simp only [removeTimeoutEvent, hpos]
    rw [hr] at hev
    obtain ⟨x, hx, hperm⟩ := perm_swapRemove_position hpos
    have hcnt : evs.countP is_timeout_event =
        (x :: swapRemove evs index).countP is_timeout_event := hperm.countP_eq _
    rw [List.countP_cons_of_pos is_timeout_event _ hx] at hcnt
    have hzero : (swapRemove evs index).countP is_timeout_event = 0 := by omega
    exact Bool.eq_false_iff.mpr (List.countP_eq_zero.mp hzero ev hev)

/-- Claim C2: with `timeout = Some d`, the wait set handed to the blocking
poll is the stored subscriptions extended by the synthetic clock subscription
carrying the reserved timeout token, and after a successful poll (which
delivers at most one event per subscription, hence at most one timeout
event) no clock event carrying the reserved timeout token remains in the
`Events` buffer returned to the caller. -/
theorem select_timeout_c2 (subs : List Subscription) (events : Events) (d : Nat)
    (poll : List Subscription → Except Nat (List Event)) (evs : List Event)
    (hpoll : poll (waitSet subs (some d)) = Except.ok evs)
    (hone : evs.countP is_timeout_event ≤ 1) :
    waitSet subs (some d) = subs ++ [timeout_subscription d] ∧
    (timeout_subscription d).userdata = TIMEOUT_TOKEN ∧
    (timeout_subscription d).u.tag = EVENTTYPE_CLOCK ∧
    ∀ ev ∈ (select subs events (some d) poll).2.1.data,
      is_timeout_event ev = false := by
  refine ⟨rfl, rfl, rfl, ?_⟩
  have hsel : (select subs events (some d) poll).2.1.data = removeTimeoutEvent evs := by
    simp only [select, hpoll, Option.isSome_some, if_true]
  rw [hsel]
  exact removeTimeoutEvent_removes_all evs hone

/-- Witness for claim C2: a `select` with timeout 5 on an empty Selector,
whose poll delivers exactly the synthetic timeout's own clock event, returns
a buffer containing no timeout event. -/
theorem select_timeout_c2_witness :
    waitSet [] (some 5) = [] ++ [timeout_subscription 5] ∧
    (timeout_subscription 5).userdata = TIMEOUT_TOKEN ∧
    (timeout_subscription 5).u.tag = EVENTTYPE_CLOCK ∧
    ∀ ev ∈ (select [] (Events.mk [] 0) (some 5)
        (fun _ => Except.ok [Event.mk TIMEOUT_TOKEN 0 EVENTTYPE_CLOCK
          (EventFdReadwrite.mk 0 0)])).2.1.data,
      is_timeout_event ev = false :=
  select_timeout_c2 [] (Events.mk [] 0) 5
    (fun _ => Except.ok [Event.mk TIMEOUT_TOKEN 0 EVENTTYPE_CLOCK (EventFdReadwrite.mk 0 0)])
    [Event.mk TIMEOUT_TOKEN 0 EVENTTYPE_CLOCK (EventFdReadwrite.mk 0 0)]
    rfl (by decide)

/-- Auxiliary: `check_errors` returns `Ok(())` when no event has a non-zero
error field, and the first such error, converted by `io_err`, otherwise. -/
theorem check_errors_eq_find (evs : List Event) :
    check_errors evs = (match evs.find? (fun ev => ev.error != 0) with
      | some e => Except.error (io_err e.error)
      | none => Except.ok ()) := by
  induction evs with
  | nil => rfl
  | cons e rest ih =>
    by_cases he : (e.error != 0) = true
    · simp [check_errors, List.find?_cons, he]
    · rw [Bool.not_eq_true] at he
      simp [check_errors, List.find?_cons, he, ih]

/-- Claim C1: when the underlying poll succeeds and the translated `Events`
buffer contains an event with a non-zero error field, `select` returns the
first such error (in the buffer's order, converted by `io_err`) as the call's
result, while the buffer keeps all translated events: partial results remain
observable, the buffer is not cleared or rolled back on this error. -/
theorem select_first_error_c1 (subs : List Subscription) (events : Events)
    (timeout : Option Nat) (poll : List Subscription → Except Nat (List Event))
    (evs : List Event) (e : Event)
    (hpoll : poll (waitSet subs timeout) = Except.ok evs)
    (hfind : ((select subs events timeout poll).2.1.data).find?
      (fun ev => ev.error != 0) = some e) :
    (select subs events timeout poll).1 = Except.error (io_err e.error) ∧
    (select subs events timeout poll).2.1.data =
      (if timeout.isSome then removeTimeoutEvent evs else evs) := by
  have hdata : (select subs events timeout poll).2.1.data =
      (if timeout.isSome then removeTimeoutEvent evs else evs) := by
    simp only [select, hpoll]
  have hres : (select subs events timeout poll).1 =
      check_errors (if timeout.isSome then removeTimeoutEvent evs else evs) := by
    simp only [select, hpoll]
  refine ⟨?_, hdata⟩
  rw [hdata] at hfind
  rw [hres, check_errors_eq_find, hfind]

/-- Witness for claim C1: a poll delivering one event with error field 7
makes `select` return that error while the buffer keeps the event. -/
theorem select_first_error_c1_witness :
    (select [] (Events.mk [] 0) none
        (fun _ => Except.ok [Event.mk 1 7 EVENTTYPE_FD_READ (EventFdReadwrite.mk 0 0)])).1 =
      Except.error (io_err (Event.mk 1 7 EVENTTYPE_FD_READ (EventFdReadwrite.mk 0 0)).error) ∧
    (select [] (Events.mk [] 0) none
        (fun _ => Except.ok [Event.mk 1 7 EVENTTYPE_FD_READ (EventFdReadwrite.mk 0 0)])).2.1.data =
      (if (none : Option Nat).isSome then
        removeTimeoutEvent [Event.mk 1 7 EVENTTYPE_FD_READ (EventFdReadwrite.mk 0 0)]
      else [Event.mk 1 7 EVENTTYPE_FD_READ (EventFdReadwrite.mk 0 0)]) :=
  select_first_error_c1 [] (Events.mk [] 0) none
    (fun _ => Except.ok [Event.mk 1 7 EVENTTYPE_FD_READ (EventFdReadwrite.mk 0 0)])
    [Event.mk 1 7 EVENTTYPE_FD_READ (EventFdReadwrite.mk 0 0)]
    (Event.mk 1 7 EVENTTYPE_FD_READ (EventFdReadwrite.mk 0 0))
    rfl rfl

/-- Claim C7: every `select` call clears the `Events` buffer at the start and
reserves its capacity to at least the wait-set size (the subscription count,
synthetic timeout subscription included); the buffer's length is set only
after a successful poll, to the delivered events (minus the synthetic
timeout's own event); and on a poll error `select` returns that error with
the buffer left empty. -/
theorem select_events_buffer_c7 (subs : List Subscription) (events : Events)
    (timeout : Option Nat) (poll : List Subscription → Except Nat (List Event)) :
    (select subs events timeout poll).2.1.cap ≥ (waitSet subs timeout).length ∧
    (∀ errno, poll (waitSet subs timeout) = Except.error errno →
      (select subs events timeout poll).1 = Except.error (io_err errno) ∧
      (select subs events timeout poll).2.1.data = []) ∧
    (∀ evs, poll (waitSet subs timeout) = Except.ok evs →
      (select subs events timeout poll).2.1.data =
        (if timeout.isSome then removeTimeoutEvent evs else evs)) := by
  refine ⟨?_, ?_, ?_⟩
  · rcases hp : poll (waitSet subs timeout) with errno | evs <;>
      · simp only [select, hp, Events.clear, Events.reserve, ge_iff_le]
        omega
  · intro errno hp
    constructor <;> simp only [select, hp, Events.clear, Events.reserve]
  · intro evs hp
    simp only [select, hp]

/-- Witness for claim C7: a failing poll leaves an empty buffer and returns
the poll's error; a successful poll fills the buffer with the delivered
events. -/
theorem select_events_buffer_c7_witness :
    ((select [] (Events.mk [] 0) none (fun _ => Except.error 9)).1 =
        Except.error (io_err 9) ∧
      (select [] (Events.mk [] 0) none (fun _ => Except.error 9)).2.1.data = []) ∧
    (select [] (Events.mk [] 0) none
        (fun _ => Except.ok [Event.mk 1 0 EVENTTYPE_FD_READ (EventFdReadwrite.mk 0 0)])).2.1.data =
      (if (none : Option Nat).isSome then
        removeTimeoutEvent [Event.mk 1 0 EVENTTYPE_FD_READ (EventFdReadwrite.mk 0 0)]
      else [Event.mk 1 0 EVENTTYPE_FD_READ (EventFdReadwrite.mk 0 0)]) :=
  ⟨(select_events_buffer_c7 [] (Events.mk [] 0) none (fun _ => Except.error 9)).2.1 9 rfl,
   (select_events_buffer_c7 [] (Events.mk [] 0) none
      (fun _ => Except.ok [Event.mk 1 0 EVENTTYPE_FD_READ (EventFdReadwrite.mk 0 0)])).2.2
      [Event.mk 1 0 EVENTTYPE_FD_READ (EventFdReadwrite.mk 0 0)] rfl⟩

/-- Claim C4 counterexample: with file descriptor 3 already registered (the
state holds subscriptions matching fd 3), a second `register` for fd 3
returns `Ok(())` rather than an error, and the subscription list afterwards
holds both registrations (four subscriptions). -/
theorem register_silently_duplicates_c4 :
    ((Selector.register [] 3 (Token.mk 1) (Interest.mk true true)).2).any
        (deregPredicate 3) = true ∧
    (Selector.register (Selector.register [] 3 (Token.mk 1) (Interest.mk true true)).2
        3 (Token.mk 2) (Interest.mk true true)).1 = Except.ok () ∧
    (Selector.register (Selector.register [] 3 (Token.mk 1) (Interest.mk true true)).2
        3 (Token.mk 2) (Interest.mk true true)).2.length = 4 :=
  ⟨by decide, rfl, by decide⟩

end Mio
